import Mathlib

/-!
Shallow embedding of `Source/Scene/createTileMapServiceImageryProvider.js`
(Cesium).  The file resolves the runtime configuration of a TMS imagery
source: it fetches `tilemapresource.xml`, scans its nodes, maps the declared
profile to a tiling scheme, derives and clamps the coverage rectangle,
applies a minimum-level tile-count heuristic, and completes a deferred
channel exactly once with either a resolved configuration or a rejection.

Modelling conventions:
* JS numbers that can be `NaN` (results of `parseInt`/`parseFloat`) are
  `JsInt` (for integer levels and pixel sizes) or `Option ℚ` (`none` = NaN,
  for bounding-box coordinates).  Caller-supplied options are plain values
  wrapped in `Option` (`none` = absent).
* A JS runtime `TypeError` (reading a property of `undefined`) is modelled
  by `Except JsError`; a thrown error inside the success callback leaves the
  deferred channel pending.
* External collaborators that live outside this source file (the tiling
  scheme constructors from `Core/GeographicTilingScheme` and
  `Core/WebMercatorTilingScheme`, `Cartographic.fromDegrees`, the map
  projections) are consumed through the `Externals` interface, exactly as
  the spec declares them out of scope.
-/

/-- A JS "number or undefined" value as it flows through the level and
pixel-size computations: `undef` models `undefined`, `nan` models `NaN`
(the result of a failed `parseInt`), `int` a finite integer. -/
inductive JsInt where
  | undef
  | nan
  | int (n : ℤ)
deriving DecidableEq

/-- A JS runtime error (e.g. `TypeError` from reading a property of
`undefined`). -/
structure JsError where
  msg : String
deriving DecidableEq

/-- The `TypeError` raised by accessing a property of `undefined`. -/
def jsUndefinedError : JsError := ⟨"TypeError: undefined has no properties"⟩

/-- `defaultValue(a, b)` from `Core/defaultValue` for caller-supplied
integers against a possibly-NaN document value: the override wins when
present. -/
def jsDefaultInt (a : Option ℤ) (b : JsInt) : JsInt :=
  match a with
  | some n => JsInt.int n
  | none => b

/-- `defaultValue(a, b)` for string-valued attributes (`getAttribute`
returns `null`, modelled `none`, when the attribute is missing). -/
def jsOrString (a : Option String) (b : Option String) : Option String :=
  match a with
  | some s => some s
  | none => b

/-- A possibly-absent caller integer as a JS value (`undefined` when
absent). -/
def jsOfOption : Option ℤ → JsInt
  | none => JsInt.undef
  | some n => JsInt.int n

/-- JS string conversion of a nullable string (string concatenation turns
`null` into `"null"`). -/
def jsToString : Option String → String
  | some s => s
  | none => "null"

/-- A parsed XML node: tag name, text content, attributes, children.
Mirrors the DOM surface the source touches (`nodeName`, `textContent`,
`getAttribute`, `childNodes`). -/
inductive XmlNode where
  | mk (nodeName : String) (textContent : String)
       (attrs : List (String × String)) (children : List XmlNode)

/-- The node's tag name. -/
def XmlNode.nodeName : XmlNode → String
  | .mk n _ _ _ => n

/-- The node's text content. -/
def XmlNode.textContent : XmlNode → String
  | .mk _ t _ _ => t

/-- The node's attribute list. -/
def XmlNode.attrs : XmlNode → List (String × String)
  | .mk _ _ a _ => a

/-- The node's child nodes. -/
def XmlNode.children : XmlNode → List XmlNode
  | .mk _ _ _ c => c

/-- DOM `getAttribute`: first binding of the key, `null` (`none`) when
missing. -/
def XmlNode.getAttribute (x : XmlNode) (k : String) : Option String :=
  (x.attrs.find? (fun p => p.1 == k)).map (fun p => p.2)

/-- Case-insensitive substring test: the JS regexes `/tileformat/i`,
`/tileset/i`, `/tilesets/i`, `/boundingbox/i`, `/srs/i` are all plain
lowercase words tested against a node name. -/
def containsCI (s pat : String) : Bool :=
  ((s.toList.map Char.toLower).tails).any (fun t => pat.toList.isPrefixOf t)

/-- Digit value of a character, `none` for non-digits. -/
def digitVal (c : Char) : Option ℕ :=
  if c.isDigit then some (c.toNat - 48) else none

/-- Split a character list into its leading decimal digits and the rest. -/
def takeDigits : List Char → (List ℕ × List Char)
  | [] => ([], [])
  | c :: cs =>
    match digitVal c with
    | some d =>
      let r := takeDigits cs
      (d :: r.1, r.2)
    | none => ([], c :: cs)

/-- Value of a digit list read most-significant first. -/
def natOfDigits (ds : List ℕ) : ℕ :=
  ds.foldl (fun a d => a * 10 + d) 0

/-- Leading sign of a character list. -/
def takeSign : List Char → (ℤ × List Char)
  | '-' :: cs => (-1, cs)
  | '+' :: cs => (1, cs)
  | cs => (1, cs)

/-- JS `parseInt(s, 10)` on a nullable string: skips leading whitespace,
reads an optional sign and leading digits; `NaN` when no digit is found
(including `parseInt(null, 10)`). -/
def parseIntJS (s : Option String) : JsInt :=
  match s with
  | none => JsInt.nan
  | some str =>
    let cs := str.toList.dropWhile (fun c => c.isWhitespace)
    let sc := takeSign cs
    let dr := takeDigits sc.2
    if dr.1 = [] then JsInt.nan
    else JsInt.int (sc.1 * (natOfDigits dr.1 : ℤ))

/-- JS `parseFloat` on a nullable string (decimal fragment: sign, integer
digits, optional fraction); `none` models `NaN`. -/
def parseFloatJS (s : Option String) : Option ℚ :=
  match s with
  | none => none
  | some str =>
    let cs := str.toList.dropWhile (fun c => c.isWhitespace)
    let sc := takeSign cs
    let dr := takeDigits sc.2
    let fr : List ℕ :=
      match dr.2 with
      | '.' :: rest => (takeDigits rest).1
      | _ => []
    if dr.1 = [] ∧ fr = [] then none
    else
      some ((sc.1 : ℚ) *
        ((natOfDigits dr.1 : ℚ) + (natOfDigits fr : ℚ) / (10 ^ fr.length : ℚ)))

/-- Result of the node scan of lines 112–142: the last matching node of
each role, plus the accumulated list of TileSet entries in document
order. -/
structure ScanResult where
  format : Option XmlNode := none
  tilesets : Option XmlNode := none
  bbox : Option XmlNode := none
  srs : Option String := none
  tilesetsList : List XmlNode := []

/-- One iteration of the scan loop over `xml.childNodes[0].childNodes`:
regex dispatch on the node name, with the TileSets branch also collecting
matching TileSet children. -/
def scanStep (acc : ScanResult) (node : XmlNode) : ScanResult :=
  if containsCI node.nodeName "tileformat" then
    { acc with format := some node }
  else if containsCI node.nodeName "tilesets" then
    { acc with
      tilesets := some node,
      tilesetsList := acc.tilesetsList ++
        node.children.filter (fun c => containsCI c.nodeName "tileset") }
  else if containsCI node.nodeName "boundingbox" then
    { acc with bbox := some node }
  else if containsCI node.nodeName "srs" then
    { acc with srs := some node.textContent }
  else acc

/-- The full scan loop (lines 122–142). -/
def scanNodes (nodes : List XmlNode) : ScanResult :=
  nodes.foldl scanStep {}

/-- A coverage rectangle in radians (`Core/Rectangle`): west, south, east,
north. -/
structure Rectangle where
  west : ℚ
  south : ℚ
  east : ℚ
  north : ℚ
deriving DecidableEq

/-- A geographic position (`Core/Cartographic`, height ignored). -/
structure Cartographic where
  longitude : ℚ
  latitude : ℚ
deriving DecidableEq

/-- The southwest corner of a rectangle (`Rectangle.southwest`). -/
def Rectangle.southwest (r : Rectangle) : Cartographic :=
  ⟨r.west, r.south⟩

/-- The northeast corner of a rectangle (`Rectangle.northeast`). -/
def Rectangle.northeast (r : Rectangle) : Cartographic :=
  ⟨r.east, r.north⟩

/-- Which concrete class a tiling scheme belongs to; `geographic` models
`instanceof GeographicTilingScheme`. -/
inductive SchemeKind where
  | geographic
  | webMercator
  | custom
deriving DecidableEq

/-- The slice of the tiling-scheme interface the source consumes: its
class, its full valid rectangle, its projection (for `unproject`), and its
tile-index function `positionToTileXY`. -/
structure TilingScheme where
  kind : SchemeKind
  rectangle : Rectangle
  unproject : Option ℚ × Option ℚ → Cartographic
  positionToTileXY : Cartographic → JsInt → ℤ × ℤ

/-- An opaque ellipsoid handle, only threaded through to the scheme
constructors. -/
structure Ellipsoid where
  tag : ℕ
deriving DecidableEq

/-- An opaque proxy handle with its URL-rewriting function. -/
structure Proxy where
  getURL : String → String

/-- An opaque tile-discard-policy handle. -/
structure OpaqueHandle where
  tag : ℕ
deriving DecidableEq

/-- The external collaborators of the resolution pipeline: the two tiling
scheme constructors and `Cartographic.fromDegrees`.  They live in other
files of the repository and are consumed through their interfaces. -/
structure Externals where
  geographicScheme : Option Ellipsoid → TilingScheme
  webMercatorScheme : Option Ellipsoid → TilingScheme
  fromDegrees : Option ℚ → Option ℚ → Cartographic

/-- Caller-supplied resolution options (the `options` object).  `url` is
required (the debug pragma throws synchronously when it is absent), all
the rest are optional overrides. -/
structure ResolutionOptions where
  fileExtension : Option String := none
  proxy : Option Proxy := none
  credit : Option String := none
  minimumLevel : Option ℤ := none
  maximumLevel : Option ℤ := none
  rectangle : Option Rectangle := none
  tilingScheme : Option TilingScheme := none
  ellipsoid : Option Ellipsoid := none
  tileWidth : Option ℤ := none
  tileHeight : Option ℤ := none
  flipXY : Option Bool := none
  tileDiscardPolicy : Option OpaqueHandle := none

/-- The record handed to `deferred.resolve` (consumed by
`UrlTemplateImageryProvider`). -/
structure ResolvedConfig where
  url : String
  tilingScheme : TilingScheme
  rectangle : Rectangle
  tileWidth : JsInt
  tileHeight : JsInt
  minimumLevel : JsInt
  maximumLevel : JsInt
  proxy : Option Proxy
  tileDiscardPolicy : Option OpaqueHandle
  credit : Option String

/-- A completion of the deferred channel: `deferred.resolve(config)` or
`deferred.reject(error message)`. -/
inductive Completion where
  | resolved (config : ResolvedConfig)
  | rejected (msg : String)

/-- `Core/joinUrls`, modelled from the spec path forms
(`<base>/tilemapresource.xml`, `<base>/{z}/{x}/{reverseY}.<ext>`). -/
def joinUrls (a b : String) : String := a ++ "/" ++ b

/-- The unsupported-profile error message (line 158; the source
concatenates without a space after the path). -/
def unsupportedProfileMessage (url : String) (name : Option String) : String :=
  joinUrls url "tilemapresource.xml" ++
    "specifies an unsupported profile attribute, " ++ jsToString name ++ "."

/-- Lines 150–165: the tiling scheme is the caller override when present;
otherwise the declared profile name is mapped (`geodetic`/`global-geodetic`
→ geographic, `mercator`/`global-mercator` → web-mercator); any other name
yields `none` (the unsupported-profile branch). -/
def resolveTilingScheme (ext : Externals) (opts : ResolutionOptions)
    (name : Option String) : Option TilingScheme :=
  match opts.tilingScheme with
  | some ts => some ts
  | none =>
    if name = some "geodetic" ∨ name = some "global-geodetic" then
      some (ext.geographicScheme opts.ellipsoid)
    else if name = some "mercator" ∨ name = some "global-mercator" then
      some (ext.webMercatorScheme opts.ellipsoid)
    else none

/-- Lines 170–202: derive the rectangle from the bounding-box node.  With
`flipXY` the X and Y attribute roles are exchanged; the extrema are
interpreted as degrees when the scheme is geographic or the profile is a
legacy gdal2tiles name, and otherwise unprojected through the scheme's
projection; the rectangle is built from the resulting corners. -/
def deriveRectangle (ext : Externals) (opts : ResolutionOptions)
    (tilingScheme : TilingScheme) (tilingSchemeName : Option String)
    (bbox : XmlNode) : Rectangle :=
  let flipXY := (opts.flipXY).getD false
  let swXY : Option ℚ × Option ℚ :=
    if flipXY then
      (parseFloatJS (bbox.getAttribute "miny"), parseFloatJS (bbox.getAttribute "minx"))
    else
      (parseFloatJS (bbox.getAttribute "minx"), parseFloatJS (bbox.getAttribute "miny"))
  let neXY : Option ℚ × Option ℚ :=
    if flipXY then
      (parseFloatJS (bbox.getAttribute "maxy"), parseFloatJS (bbox.getAttribute "maxx"))
    else
      (parseFloatJS (bbox.getAttribute "maxx"), parseFloatJS (bbox.getAttribute "maxy"))
  let isGdal2tiles := tilingSchemeName = some "geodetic" ∨ tilingSchemeName = some "mercator"
  let sw :=
    if tilingScheme.kind = SchemeKind.geographic ∨ isGdal2tiles then
      ext.fromDegrees swXY.1 swXY.2
    else tilingScheme.unproject swXY
  let ne :=
    if tilingScheme.kind = SchemeKind.geographic ∨ isGdal2tiles then
      ext.fromDegrees neXY.1 neXY.2
    else tilingScheme.unproject neXY
  { west := sw.longitude, south := sw.latitude,
    east := ne.longitude, north := ne.latitude }

/-- Lines 204–216: each edge is independently clamped against the tiling
scheme's valid rectangle (one `if` per edge, in source order). -/
def clampRect (bounds r : Rectangle) : Rectangle :=
  let r1 := if r.west < bounds.west then { r with west := bounds.west } else r
  let r2 := if r1.east > bounds.east then { r1 with east := bounds.east } else r1
  let r3 := if r2.south < bounds.south then { r2 with south := bounds.south } else r2
  if r3.north > bounds.north then { r3 with north := bounds.north } else r3

/-- Lines 221–223: number of tiles spanned by the rectangle's corners at a
given level, `(|Δx|+1)·(|Δy|+1)`. -/
def tileCountAt (scheme : TilingScheme) (r : Rectangle) (level : JsInt) : ℕ :=
  let swTile := scheme.positionToTileXY (Rectangle.southwest r) level
  let neTile := scheme.positionToTileXY (Rectangle.northeast r) level
  ((neTile.1 - swTile.1).natAbs + 1) * ((neTile.2 - swTile.2).natAbs + 1)

/-- Lines 218–226: force the minimum level to 0 when its footprint exceeds
four tiles, otherwise keep it. -/
def applyMinLevelHeuristic (scheme : TilingScheme) (r : Rectangle)
    (minimumLevel : JsInt) : JsInt :=
  if tileCountAt scheme r minimumLevel > 4 then JsInt.int 0 else minimumLevel

/-- Lines 204–241: clamp the rectangle, apply the minimum-level heuristic,
build the template URL and resolve the deferred channel. -/
def assembleSuccess (opts : ResolutionOptions) (url : String)
    (tilingScheme : TilingScheme) (rect0 : Rectangle)
    (tileWidth tileHeight minimumLevel maximumLevel : JsInt)
    (fileExtension : Option String) : Completion :=
  let rectangle := clampRect tilingScheme.rectangle rect0
  let minimumLevel := applyMinLevelHeuristic tilingScheme rectangle minimumLevel
  let templateUrl := joinUrls url ("{z}/{x}/{reverseY}." ++ jsToString fileExtension)
  Completion.resolved
    { url := templateUrl
      tilingScheme := tilingScheme
      rectangle := rectangle
      tileWidth := tileWidth
      tileHeight := tileHeight
      minimumLevel := minimumLevel
      maximumLevel := maximumLevel
      proxy := opts.proxy
      tileDiscardPolicy := opts.tileDiscardPolicy
      credit := opts.credit }

/-- `metadataSuccess` (lines 111–242).  The result is the list of
completions performed on the deferred channel; `Except.error` models an
uncaught JS `TypeError` (property access on `undefined`), which leaves the
channel untouched (pending).  `retryGranted` is the decision of the
external error-reporting channel (`TileProviderError.handleError`). -/
def metadataSuccess (ext : Externals) (opts : ResolutionOptions)
    (url : String) (xml : XmlNode) (retryGranted : Bool) :
    Except JsError (List Completion) :=
  match xml.children.head? with
  | none => Except.error jsUndefinedError
  | some root =>
    let scan := scanNodes root.children
    match scan.format with
    | none => Except.error jsUndefinedError
    | some format =>
      let fileExtension := jsOrString opts.fileExtension (format.getAttribute "extension")
      let tileWidth := jsDefaultInt opts.tileWidth (parseIntJS (format.getAttribute "width"))
      let tileHeight := jsDefaultInt opts.tileHeight (parseIntJS (format.getAttribute "height"))
      match scan.tilesetsList.head? with
      | none => Except.error jsUndefinedError
      | some firstTileset =>
        let minimumLevel := jsDefaultInt opts.minimumLevel
          (parseIntJS (firstTileset.getAttribute "order"))
        match scan.tilesetsList.getLast? with
        | none => Except.error jsUndefinedError
        | some lastTileset =>
          let maximumLevel := jsDefaultInt opts.maximumLevel
            (parseIntJS (lastTileset.getAttribute "order"))
          match scan.tilesets with
          | none => Except.error jsUndefinedError
          | some tilesetsNode =>
            let tilingSchemeName := tilesetsNode.getAttribute "profile"
            match resolveTilingScheme ext opts tilingSchemeName with
            | none =>
              if retryGranted then Except.ok []
              else Except.ok
                [Completion.rejected (unsupportedProfileMessage url tilingSchemeName)]
            | some tilingScheme =>
              match opts.rectangle with
              | some r =>
                Except.ok [assembleSuccess opts url tilingScheme r
                  tileWidth tileHeight minimumLevel maximumLevel fileExtension]
              | none =>
                match scan.bbox with
                | none => Except.error jsUndefinedError
                | some bbox =>
                  Except.ok [assembleSuccess opts url tilingScheme
                    (deriveRectangle ext opts tilingScheme tilingSchemeName bbox)
                    tileWidth tileHeight minimumLevel maximumLevel fileExtension]

/-- `metadataFailure` (lines 244–268): caller overrides where present, else
the documented defaults; always a single `resolve`. -/
def metadataFailure (ext : Externals) (opts : ResolutionOptions)
    (url : String) : List Completion :=
  let fileExtension := (opts.fileExtension).getD "png"
  let tileWidth := JsInt.int ((opts.tileWidth).getD 256)
  let tileHeight := JsInt.int ((opts.tileHeight).getD 256)
  let minimumLevel := JsInt.int ((opts.minimumLevel).getD 0)
  let maximumLevel := jsOfOption opts.maximumLevel
  let tilingScheme :=
    match opts.tilingScheme with
    | some ts => ts
    | none => ext.webMercatorScheme opts.ellipsoid
  let rectangle := (opts.rectangle).getD tilingScheme.rectangle
  let templateUrl := joinUrls url ("{z}/{x}/{reverseY}." ++ fileExtension)
  [Completion.resolved
    { url := templateUrl
      tilingScheme := tilingScheme
      rectangle := rectangle
      tileWidth := tileWidth
      tileHeight := tileHeight
      minimumLevel := minimumLevel
      maximumLevel := maximumLevel
      proxy := opts.proxy
      tileDiscardPolicy := opts.tileDiscardPolicy
      credit := opts.credit }]

/-- Outcome of the capabilities fetch: a parsed XML document or a
transport/parse failure. -/
inductive FetchOutcome where
  | success (xml : XmlNode)
  | failure

/-- Line 277: the `when(request, metadataSuccess, metadataFailure)`
dispatch once the fetch settles. -/
def resolveStep (ext : Externals) (opts : ResolutionOptions) (url : String)
    (retryGranted : Bool) : FetchOutcome → Except JsError (List Completion)
  | FetchOutcome.success xml => metadataSuccess ext opts url xml retryGranted
  | FetchOutcome.failure => Except.ok (metadataFailure ext opts url)

/-- Lookup in a list of (reference, rectangle) heap entries. -/
def heapFind : List (ℕ × Rectangle) → ℕ → Option Rectangle
  | [], _ => none
  | p :: t, r => if p.1 = r then some p.2 else heapFind t r

/-- Point update of a heap entry (no-op on a missing reference). -/
def heapPut : List (ℕ × Rectangle) → ℕ → Rectangle → List (ℕ × Rectangle)
  | [], _, _ => []
  | p :: t, r, v => if p.1 = r then (p.1, v) :: t else p :: heapPut t r v

/-- A heap of rectangle objects: reference semantics for the mutation of
lines 204–216.  `next` is the next fresh reference. -/
structure RectHeap where
  entries : List (ℕ × Rectangle)
  next : ℕ

/-- Read the rectangle at a reference. -/
def RectHeap.get (h : RectHeap) (r : ℕ) : Option Rectangle :=
  heapFind h.entries r

/-- Overwrite the rectangle at a reference. -/
def RectHeap.set (h : RectHeap) (r : ℕ) (v : Rectangle) : RectHeap :=
  { h with entries := heapPut h.entries r v }

/-- Allocate a fresh rectangle object. -/
def RectHeap.alloc (h : RectHeap) (v : Rectangle) : ℕ × RectHeap :=
  (h.next, ⟨(h.next, v) :: h.entries, h.next + 1⟩)

/-- Heap well-formedness: every live reference is below `next`. -/
def RectHeap.WF (h : RectHeap) : Prop :=
  ∀ p ∈ h.entries, p.1 < h.next

/-- Lines 205–216 with reference semantics: the four edge-clamping `if`
statements, each re-reading the rectangle object and assigning one field
in place. -/
def clampEdgesInPlace (bounds : Rectangle) (ref : ℕ) (h : RectHeap) :
    Except JsError RectHeap :=
  match h.get ref with
  | none => Except.error jsUndefinedError
  | some v0 =>
    let h1 := if v0.west < bounds.west then h.set ref { v0 with west := bounds.west } else h
    match h1.get ref with
    | none => Except.error jsUndefinedError
    | some v1 =>
      let h2 := if v1.east > bounds.east then h1.set ref { v1 with east := bounds.east } else h1
      match h2.get ref with
      | none => Except.error jsUndefinedError
      | some v2 =>
        let h3 := if v2.south < bounds.south then h2.set ref { v2 with south := bounds.south } else h2
        match h3.get ref with
        | none => Except.error jsUndefinedError
        | some v3 =>
          Except.ok (if v3.north > bounds.north then h3.set ref { v3 with north := bounds.north } else h3)

/-- Lines 167–216 with reference semantics: `Rectangle.clone` of the
caller's rectangle object (or derivation of a fresh one from the
bounding box), followed by in-place clamping.  Returns the reference of
the rectangle object stored into the configuration. -/
def rectangleHandlingRef (ext : Externals) (opts : ResolutionOptions)
    (tilingScheme : TilingScheme) (tilingSchemeName : Option String)
    (bbox : Option XmlNode) (callerRect : Option ℕ) (h : RectHeap) :
    Except JsError (ℕ × RectHeap) :=
  match callerRect with
  | some r =>
    match h.get r with
    | none => Except.error jsUndefinedError
    | some v =>
      let a := h.alloc v
      (clampEdgesInPlace tilingScheme.rectangle a.1 a.2).map (fun h2 => (a.1, h2))
  | none =>
    match bbox with
    | none => Except.error jsUndefinedError
    | some b =>
      let a := h.alloc (deriveRectangle ext opts tilingScheme tilingSchemeName b)
      (clampEdgesInPlace tilingScheme.rectangle a.1 a.2).map (fun h2 => (a.1, h2))

/-- A document the success callback can process without throwing: the
document has a root, the scan finds a TileFormat node, at least one
TileSet entry, a TileSets container, and either a caller rectangle
override or a BoundingBox node. -/
def ProcessableDoc (opts : ResolutionOptions) (xml : XmlNode) : Prop :=
  ∃ root, xml.children.head? = some root ∧
    (scanNodes root.children).format.isSome = true ∧
    (scanNodes root.children).tilesetsList.head?.isSome = true ∧
    (scanNodes root.children).tilesetsList.getLast?.isSome = true ∧
    (scanNodes root.children).tilesets.isSome = true ∧
    (opts.rectangle.isSome = true ∨ (scanNodes root.children).bbox.isSome = true)

/-- Reduction of `metadataSuccess` once the scanned sections are known:
the remaining behaviour depends only on the profile mapping and the
rectangle source. -/
theorem metadataSuccess_reduce (ext : Externals) (opts : ResolutionOptions)
    (url : String) (xml : XmlNode) (retry : Bool) (root f fst lst c : XmlNode)
    (hroot : xml.children.head? = some root)
    (hf : (scanNodes root.children).format = some f)
    (hfst : (scanNodes root.children).tilesetsList.head? = some fst)
    (hlst : (scanNodes root.children).tilesetsList.getLast? = some lst)
    (hc : (scanNodes root.children).tilesets = some c) :
    metadataSuccess ext opts url xml retry =
      match resolveTilingScheme ext opts (c.getAttribute "profile") with
      | none =>
        if retry then Except.ok []
        else Except.ok
          [Completion.rejected (unsupportedProfileMessage url (c.getAttribute "profile"))]
      | some tilingScheme =>
        match opts.rectangle with
        | some r =>
          Except.ok [assembleSuccess opts url tilingScheme r
            (jsDefaultInt opts.tileWidth (parseIntJS (f.getAttribute "width")))
            (jsDefaultInt opts.tileHeight (parseIntJS (f.getAttribute "height")))
            (jsDefaultInt opts.minimumLevel (parseIntJS (fst.getAttribute "order")))
            (jsDefaultInt opts.maximumLevel (parseIntJS (lst.getAttribute "order")))
            (jsOrString opts.fileExtension (f.getAttribute "extension"))]
        | none =>
          match (scanNodes root.children).bbox with
          | none => Except.error jsUndefinedError
          | some bbox =>
            Except.ok [assembleSuccess opts url tilingScheme
              (deriveRectangle ext opts tilingScheme (c.getAttribute "profile") bbox)
              (jsDefaultInt opts.tileWidth (parseIntJS (f.getAttribute "width")))
              (jsDefaultInt opts.tileHeight (parseIntJS (f.getAttribute "height")))
              (jsDefaultInt opts.minimumLevel (parseIntJS (fst.getAttribute "order")))
              (jsDefaultInt opts.maximumLevel (parseIntJS (lst.getAttribute "order")))
              (jsOrString opts.fileExtension (f.getAttribute "extension"))] := by
  simp only [metadataSuccess, hroot, hf, hfst, hlst, hc]

/-- The west edge after clamping is the max of the edge and its bound. -/
theorem clampRect_west (bounds r : Rectangle) :
    (clampRect bounds r).west = max bounds.west r.west := by
  unfold clampRect
  rcases lt_or_le r.west bounds.west with h | h
  · simp [h, apply_ite Rectangle.west, max_eq_left h.le]
  · simp [not_lt.2 h, apply_ite Rectangle.west, max_eq_right h]

/-- The south edge after clamping is the max of the edge and its bound. -/
theorem clampRect_south (bounds r : Rectangle) :
    (clampRect bounds r).south = max bounds.south r.south := by
  unfold clampRect
  rcases lt_or_le r.south bounds.south with h | h
  · simp [h, apply_ite Rectangle.south, max_eq_left h.le]
  · simp [not_lt.2 h, apply_ite Rectangle.south, max_eq_right h]

/-- The east edge after clamping is the min of the edge and its bound. -/
theorem clampRect_east (bounds r : Rectangle) :
    (clampRect bounds r).east = min bounds.east r.east := by
  unfold clampRect
  rcases lt_or_le bounds.east r.east with h | h
  · simp [h, apply_ite Rectangle.east, min_eq_left h.le]
  · simp [not_lt.2 h, apply_ite Rectangle.east, min_eq_right h]

/-- The north edge after clamping is the min of the edge and its bound. -/
theorem clampRect_north (bounds r : Rectangle) :
    (clampRect bounds r).north = min bounds.north r.north := by
  unfold clampRect
  rcases lt_or_le bounds.north r.north with h | h
  · simp [h, apply_ite Rectangle.north, min_eq_left h.le]
  · simp [not_lt.2 h, apply_ite Rectangle.north, min_eq_right h]

/-- Updating one reference leaves every other reference's value
unchanged. -/
theorem heapFind_put_ne (l : List (ℕ × Rectangle)) (a q : ℕ) (v : Rectangle)
    (hne : q ≠ a) : heapFind (heapPut l a v) q = heapFind l q := by
  induction l with
  | nil => rfl
  | cons p t ih =>
    simp only [heapPut]
    by_cases hp : p.1 = a
    · have haq : ¬ a = q := fun hh => hne hh.symm
      simp [heapFind, hp, haq]
    · simp only [if_neg hp]
      simp [heapFind, ih]

/-- `RectHeap.set` at one reference preserves every other reference. -/
theorem RectHeap.get_set_ne (h : RectHeap) (a q : ℕ) (v : Rectangle)
    (hne : q ≠ a) : (h.set a v).get q = h.get q :=
  heapFind_put_ne h.entries a q v hne

/-- A successful lookup exhibits a heap entry. -/
theorem heapFind_mem (l : List (ℕ × Rectangle)) (q : ℕ) (v : Rectangle)
    (hv : heapFind l q = some v) : (q, v) ∈ l := by
  induction l with
  | nil => simp [heapFind] at hv
  | cons p t ih =>
    rw [heapFind] at hv
    by_cases hp : p.1 = q
    · rw [if_pos hp] at hv
      injection hv with hv
      exact List.mem_cons.2 (Or.inl (by rw [← hp, ← hv]))
    · rw [if_neg hp] at hv
      exact List.mem_cons_of_mem _ (ih hv)

/-- Lookup skips a cons cell with a different reference. -/
theorem heapFind_cons_ne (p : ℕ × Rectangle) (t : List (ℕ × Rectangle))
    (q : ℕ) (hne : ¬ p.1 = q) : heapFind (p :: t) q = heapFind t q := by
  rw [heapFind, if_neg hne]

/-- Allocation preserves every existing reference. -/
theorem RectHeap.get_alloc_ne (h : RectHeap) (v : Rectangle) (q : ℕ)
    (hne : q ≠ h.next) : ((h.alloc v).2).get q = h.get q :=
  heapFind_cons_ne (h.next, v) h.entries q (fun hh => hne hh.symm)

/-- In-place clamping writes only through its own reference: any other
reference's value is untouched. -/
theorem clampEdges_preserves (bounds : Rectangle) (ref : ℕ) (h h4 : RectHeap)
    (q : ℕ) (hq : q ≠ ref)
    (hok : clampEdgesInPlace bounds ref h = Except.ok h4) :
    h4.get q = h.get q := by
  have pres : ∀ (hh : RectHeap) (v : Rectangle) (c : Prop) (hc : Decidable c),
      (@ite _ c hc (hh.set ref v) hh).get q = hh.get q := by
    intro hh v c hc
    by_cases hcc : c
    · rw [if_pos hcc]; exact RectHeap.get_set_ne hh ref q v hq
    · rw [if_neg hcc]
  simp only [clampEdgesInPlace] at hok
  split at hok
  · cases hok
  · split at hok
    · cases hok
    · split at hok
      · cases hok
      · split at hok
        · cases hok
        · injection hok with hok
          rw [← hok]
          simp only [pres]

/-- Two rectangles with equal fields are equal. -/
theorem Rectangle.eq_of_fields (a b : Rectangle) (hw : a.west = b.west)
    (hs : a.south = b.south) (he : a.east = b.east) (hn : a.north = b.north) :
    a = b := by
  cases a; cases b; simp_all

/-- A concrete tile-index function for witnesses: the floor of each
coordinate. -/
def tileFnW (c : Cartographic) : JsInt → ℤ × ℤ :=
  fun _ => (Int.floor c.longitude, Int.floor c.latitude)

/-- A concrete tiling scheme for witnesses. -/
def mkSchemeW (k : SchemeKind) (r : Rectangle) : TilingScheme :=
  { kind := k
    rectangle := r
    unproject := fun p => ⟨(p.1.getD 0) / 2, (p.2.getD 0) / 2⟩
    positionToTileXY := tileFnW }

/-- Concrete external collaborators for witnesses. -/
def extW : Externals :=
  { geographicScheme := fun _ => mkSchemeW SchemeKind.geographic ⟨-3, -2, 3, 2⟩
    webMercatorScheme := fun _ => mkSchemeW SchemeKind.webMercator ⟨-3, -1, 3, 1⟩
    fromDegrees := fun x y => ⟨(x.getD 0) / 60, (y.getD 0) / 60⟩ }

/-- A concrete TileFormat node. -/
def fmtNodeW : XmlNode :=
  XmlNode.mk "TileFormat" "" [("width", "256"), ("height", "256"), ("extension", "png")] []

/-- A concrete TileSet entry. -/
def tileSetEntryW (o : String) : XmlNode :=
  XmlNode.mk "TileSet" "" [("order", o)] []

/-- A concrete TileSets container. -/
def tileSetsNodeW (p : String) (cs : List XmlNode) : XmlNode :=
  XmlNode.mk "TileSets" "" [("profile", p)] cs

/-- A concrete BoundingBox node. -/
def bboxNodeW : XmlNode :=
  XmlNode.mk "BoundingBox" ""
    [("minx", "-120"), ("miny", "20"), ("maxx", "-60"), ("maxy", "40")] []

/-- A concrete document around a given section list. -/
def docW (cs : List XmlNode) : XmlNode :=
  XmlNode.mk "#document" "" [] [XmlNode.mk "TileMap" "" [] cs]

/-- A well-formed capabilities document (all sections present). -/
def wellFormedDocW : XmlNode :=
  docW [fmtNodeW, tileSetsNodeW "global-mercator" [tileSetEntryW "2", tileSetEntryW "9"], bboxNodeW]

/-- A document with every section except TileFormat. -/
def noFormatDocW : XmlNode :=
  docW [tileSetsNodeW "global-mercator" [tileSetEntryW "2"], bboxNodeW]

/-- A document whose declared profile is unsupported. -/
def unsupportedDocW : XmlNode :=
  docW [fmtNodeW, tileSetsNodeW "foo" [tileSetEntryW "2"], bboxNodeW]

/-- C8: Clamping is idempotent: for every rectangle and every tiling
scheme's valid rectangle, re-applying the edge-clamping step to an
already-clamped rectangle leaves it unchanged. -/
theorem clamping_idempotent (bounds r : Rectangle) :
    clampRect bounds (clampRect bounds r) = clampRect bounds r := by
  apply Rectangle.eq_of_fields
  · rw [clampRect_west, clampRect_west, ← max_assoc, max_self]
  · rw [clampRect_south, clampRect_south, ← max_assoc, max_self]
  · rw [clampRect_east, clampRect_east, ← min_assoc, min_self]
  · rw [clampRect_north, clampRect_north, ← min_assoc, min_self]

/-- C3: When the capabilities fetch or parse fails, resolution completes
with a single successful resolve whose configuration equals the caller's
overrides where present and otherwise the defaults: extension `png`, tile
size 256×256, minimum level 0, maximum level unbounded (`undefined`),
tiling scheme a default global web-mercator scheme, rectangle the chosen
scheme's full valid rectangle; the failure is never surfaced. -/
theorem fallback_configuration_defaults (ext : Externals)
    (opts : ResolutionOptions) (url : String) (retry : Bool) :
    ∃ cfg, resolveStep ext opts url retry FetchOutcome.failure =
        Except.ok [Completion.resolved cfg] ∧
      cfg.url = joinUrls url ("{z}/{x}/{reverseY}." ++ (opts.fileExtension).getD "png") ∧
      cfg.tileWidth = JsInt.int ((opts.tileWidth).getD 256) ∧
      cfg.tileHeight = JsInt.int ((opts.tileHeight).getD 256) ∧
      cfg.minimumLevel = JsInt.int ((opts.minimumLevel).getD 0) ∧
      cfg.maximumLevel = jsOfOption opts.maximumLevel ∧
      cfg.tilingScheme = (opts.tilingScheme).getD (ext.webMercatorScheme opts.ellipsoid) ∧
      cfg.rectangle = (opts.rectangle).getD
        ((opts.tilingScheme).getD (ext.webMercatorScheme opts.ellipsoid)).rectangle := by
  refine ⟨_, rfl, rfl, rfl, rfl, rfl, rfl, ?_, ?_⟩ <;>
    cases opts.tilingScheme <;> rfl

/-- C9: On the fallback path, caller overrides are adopted verbatim — the
rectangle override is not clamped to the scheme's valid rectangle and the
tile-count heuristic is not applied to a minimum-level override. -/
theorem fallback_overrides_verbatim (ext : Externals)
    (opts : ResolutionOptions) (url : String) (retry : Bool) (r : Rectangle)
    (hr : opts.rectangle = some r) :
    ∃ cfg, resolveStep ext opts url retry FetchOutcome.failure =
        Except.ok [Completion.resolved cfg] ∧
      cfg.rectangle = r ∧
      cfg.minimumLevel = JsInt.int ((opts.minimumLevel).getD 0) ∧
      (∀ m, opts.minimumLevel = some m → cfg.minimumLevel = JsInt.int m) := by
  refine ⟨_, rfl, ?_, rfl, ?_⟩
  · show ((opts.rectangle).getD _) = r
    rw [hr]; rfl
  · intro m hm
    show JsInt.int ((opts.minimumLevel).getD 0) = JsInt.int m
    rw [hm]; rfl

/-- On any processable document, the success callback performs at most one
completion, and exactly one when no retry is granted. -/
theorem processable_success_shape (ext : Externals) (opts : ResolutionOptions)
    (url : String) (retry : Bool) (xml : XmlNode)
    (hdoc : ProcessableDoc opts xml) :
    ∃ l, metadataSuccess ext opts url xml retry = Except.ok l ∧
      l.length ≤ 1 ∧ (retry = false → l.length = 1) := by
  obtain ⟨root, hroot, hf, hfst, hlst, hc, hrb⟩ := hdoc
  rw [Option.isSome_iff_exists] at hf hfst hlst hc
  obtain ⟨f, hf⟩ := hf
  obtain ⟨fst, hfst⟩ := hfst
  obtain ⟨lst, hlst⟩ := hlst
  obtain ⟨c, hc⟩ := hc
  rw [metadataSuccess_reduce ext opts url xml retry root f fst lst c hroot hf hfst hlst hc]
  cases hts : resolveTilingScheme ext opts (c.getAttribute "profile") with
  | none =>
    cases retry
    · exact ⟨_, rfl, by simp, fun _ => rfl⟩
    · exact ⟨_, rfl, by simp, fun h => Bool.noConfusion h⟩
  | some scheme =>
    cases hrect : opts.rectangle with
    | some r => exact ⟨_, rfl, by simp, fun _ => rfl⟩
    | none =>
      rcases hrb with hro | hbb
      · rw [hrect] at hro; simp at hro
      · rw [Option.isSome_iff_exists] at hbb
        obtain ⟨b, hbb⟩ := hbb
        rw [hbb]
        exact ⟨_, rfl, by simp, fun _ => rfl⟩

/-- The all-sections document is processable (it has no SRS node: the
spatial-reference section is absent). -/
theorem wellFormedDocW_processable : ProcessableDoc {} wellFormedDocW :=
  ⟨XmlNode.mk "TileMap" "" []
      [fmtNodeW, tileSetsNodeW "global-mercator" [tileSetEntryW "2", tileSetEntryW "9"], bboxNodeW],
    rfl, rfl, rfl, rfl, rfl, Or.inr rfl⟩

/-- C1 (amended): the fallback path always completes the channel exactly
once, and a successful fetch completes it exactly once provided the
document is processable (has the sections the success path reads) and no
retry is granted; with a granted retry the channel is completed at most
once.  (The original claim fails: a successful fetch with a document
missing a read section throws and leaves the channel pending — see the
counterexample.) -/
theorem deferred_completed_exactly_once_amended (ext : Externals)
    (opts : ResolutionOptions) (url : String) (retry : Bool) :
    (∃ cfg, resolveStep ext opts url retry FetchOutcome.failure =
        Except.ok [Completion.resolved cfg]) ∧
    (∀ xml, ProcessableDoc opts xml →
      ∃ l, resolveStep ext opts url retry (FetchOutcome.success xml) = Except.ok l ∧
        l.length ≤ 1 ∧ (retry = false → l.length = 1)) :=
  ⟨⟨_, rfl⟩, fun xml hdoc => processable_success_shape ext opts url retry xml hdoc⟩

/-- C1 witness: a concrete processable document on which the success path
completes the channel exactly once. -/
theorem deferred_completed_exactly_once_witness :
    ProcessableDoc {} wellFormedDocW ∧
    ∃ l, resolveStep extW {} "u" false (FetchOutcome.success wellFormedDocW) = Except.ok l ∧
      l.length ≤ 1 ∧ (false = false → l.length = 1) :=
  ⟨wellFormedDocW_processable,
    (deferred_completed_exactly_once_amended extW {} "u" false).2
      wellFormedDocW wellFormedDocW_processable⟩

/-- C1 counterexample: a fetch that succeeds with a document lacking a
TileFormat section makes the success callback throw, so the channel
receives zero completions (left pending), contradicting "completed exactly
once regardless of whether the capabilities fetch succeeds". -/
theorem deferred_left_pending_on_malformed_doc :
    resolveStep extW {} "u" false (FetchOutcome.success noFormatDocW) =
      Except.error jsUndefinedError := by rfl

/-- C2 (amended): absence of an optional section does not degrade
gracefully in general.  Absence of the format section throws; an empty or
absent tileset list throws; absence of the bounding box without a
rectangle override throws.  Only a processable document (which may lack
the spatial-reference section, and may lack the bounding box when a
rectangle override exists) resolves without an error. -/
theorem optional_section_absence_amended :
    (∀ (ext : Externals) (opts : ResolutionOptions) (url : String) (retry : Bool)
        (xml root : XmlNode),
      xml.children.head? = some root →
      (scanNodes root.children).format = none →
      metadataSuccess ext opts url xml retry = Except.error jsUndefinedError) ∧
    (∀ (ext : Externals) (opts : ResolutionOptions) (url : String) (retry : Bool)
        (xml root f : XmlNode),
      xml.children.head? = some root →
      (scanNodes root.children).format = some f →
      (scanNodes root.children).tilesetsList = [] →
      metadataSuccess ext opts url xml retry = Except.error jsUndefinedError) ∧
    (∀ (ext : Externals) (opts : ResolutionOptions) (url : String) (retry : Bool)
        (xml root f fst lst c : XmlNode) (scheme : TilingScheme),
      xml.children.head? = some root →
      (scanNodes root.children).format = some f →
      (scanNodes root.children).tilesetsList.head? = some fst →
      (scanNodes root.children).tilesetsList.getLast? = some lst →
      (scanNodes root.children).tilesets = some c →
      resolveTilingScheme ext opts (c.getAttribute "profile") = some scheme →
      opts.rectangle = none →
      (scanNodes root.children).bbox = none →
      metadataSuccess ext opts url xml retry = Except.error jsUndefinedError) ∧
    (∀ (ext : Externals) (opts : ResolutionOptions) (url : String) (retry : Bool)
        (xml : XmlNode), ProcessableDoc opts xml →
      ∃ l, metadataSuccess ext opts url xml retry = Except.ok l) := by
  refine ⟨?_, ?_, ?_, ?_⟩
  · intro ext opts url retry xml root hroot hf
    simp only [metadataSuccess, hroot, hf]
  · intro ext opts url retry xml root f hroot hf hlist
    simp only [metadataSuccess, hroot, hf, hlist, List.head?_nil]
  · intro ext opts url retry xml root f fst lst c scheme hroot hf hfst hlst hc hts hrect hbb
    rw [metadataSuccess_reduce ext opts url xml retry root f fst lst c hroot hf hfst hlst hc,
      hts, hrect, hbb]
  · intro ext opts url retry xml hdoc
    obtain ⟨l, hl, _⟩ := processable_success_shape ext opts url retry xml hdoc
    exact ⟨l, hl⟩

/-- C2 witness: a concrete document with no spatial-reference section (and
all read sections present) resolves without an error. -/
theorem optional_section_absence_witness :
    ProcessableDoc {} wellFormedDocW ∧
    ∃ l, metadataSuccess extW {} "u" wellFormedDocW false = Except.ok l :=
  ⟨wellFormedDocW_processable,
    optional_section_absence_amended.2.2.2 extW {} "u" false
      wellFormedDocW wellFormedDocW_processable⟩

/-- C2 counterexample: a document whose TileFormat section is absent (all
other sections present) makes the success path throw an unguarded
`TypeError` instead of degrading gracefully. -/
theorem missing_format_section_crashes :
    metadataSuccess extW {} "u" noFormatDocW false =
      Except.error jsUndefinedError := by rfl

/-- C4: For a document whose declared profile is none of `geodetic`,
`global-geodetic`, `mercator`, `global-mercator` (and whose sections the
success path reads are present): without a tiling-scheme override and
without a granted retry, the channel is rejected permanently with the
unsupported-profile message (the consumer never receives a
configuration); with a tiling-scheme override, profile mapping is skipped
and resolution proceeds with the override. -/
theorem unsupported_profile_handling (ext : Externals)
    (opts : ResolutionOptions) (url : String) (retry : Bool)
    (xml root f fst lst c : XmlNode)
    (hroot : xml.children.head? = some root)
    (hf : (scanNodes root.children).format = some f)
    (hfst : (scanNodes root.children).tilesetsList.head? = some fst)
    (hlst : (scanNodes root.children).tilesetsList.getLast? = some lst)
    (hc : (scanNodes root.children).tilesets = some c)
    (hname : c.getAttribute "profile" ∉
      [some "geodetic", some "global-geodetic", some "mercator", some "global-mercator"]) :
    (opts.tilingScheme = none → retry = false →
      metadataSuccess ext opts url xml retry =
        Except.ok [Completion.rejected
          (unsupportedProfileMessage url (c.getAttribute "profile"))]) ∧
    (∀ ts, opts.tilingScheme = some ts →
      (opts.rectangle.isSome = true ∨ (scanNodes root.children).bbox.isSome = true) →
      ∃ cfg, metadataSuccess ext opts url xml retry = Except.ok [Completion.resolved cfg] ∧
        cfg.tilingScheme = ts) := by
  simp only [List.mem_cons, List.mem_singleton, not_or] at hname
  obtain ⟨h1, h2, h3, h4⟩ := hname
  rw [metadataSuccess_reduce ext opts url xml retry root f fst lst c hroot hf hfst hlst hc]
  constructor
  · intro hts hretry
    have hres : resolveTilingScheme ext opts (c.getAttribute "profile") = none := by
      simp [resolveTilingScheme, hts, h1, h2, h3, h4]
    rw [hres, hretry]
    simp
  · intro ts hts hrb
    have hres : resolveTilingScheme ext opts (c.getAttribute "profile") = some ts := by
      simp [resolveTilingScheme, hts]
    rw [hres]
    cases hrect : opts.rectangle with
    | some r => exact ⟨_, rfl, rfl⟩
    | none =>
      rcases hrb with hro | hbb
      · rw [hrect] at hro; simp at hro
      · rw [Option.isSome_iff_exists] at hbb
        obtain ⟨b, hbb⟩ := hbb
        rw [hbb]
        exact ⟨_, rfl, rfl⟩

/-- C4 witness: a concrete document declaring profile `foo`, no overrides,
no retry: the channel is rejected with the unsupported-profile message. -/
theorem unsupported_profile_handling_witness :
    ((tileSetsNodeW "foo" [tileSetEntryW "2"]).getAttribute "profile" ∉
      [some "geodetic", some "global-geodetic", some "mercator", some "global-mercator"]) ∧
    metadataSuccess extW {} "u" unsupportedDocW false =
      Except.ok [Completion.rejected
        (unsupportedProfileMessage "u"
          ((tileSetsNodeW "foo" [tileSetEntryW "2"]).getAttribute "profile"))] :=
  ⟨by decide,
    (unsupported_profile_handling extW {} "u" false unsupportedDocW
      (XmlNode.mk "TileMap" "" []
        [fmtNodeW, tileSetsNodeW "foo" [tileSetEntryW "2"], bboxNodeW])
      fmtNodeW (tileSetEntryW "2") (tileSetEntryW "2")
      (tileSetsNodeW "foo" [tileSetEntryW "2"])
      rfl rfl rfl rfl rfl (by decide)).1 rfl rfl⟩

/-- Field content of a success-path assembly: the configuration carries the
clamped rectangle, the heuristic-adjusted minimum level, and the given
scheme and level/size values. -/
theorem assembleSuccess_fields (opts : ResolutionOptions) (url : String)
    (ts : TilingScheme) (r0 : Rectangle) (tw th minL maxL : JsInt)
    (fe : Option String) :
    ∃ cfg, assembleSuccess opts url ts r0 tw th minL maxL fe =
        Completion.resolved cfg ∧
      cfg.rectangle = clampRect ts.rectangle r0 ∧
      cfg.minimumLevel = applyMinLevelHeuristic ts (clampRect ts.rectangle r0) minL ∧
      cfg.tilingScheme = ts ∧
      cfg.tileWidth = tw ∧
      cfg.tileHeight = th ∧
      cfg.maximumLevel = maxL ∧
      cfg.url = joinUrls url ("{z}/{x}/{reverseY}." ++ jsToString fe) :=
  ⟨_, rfl, rfl, rfl, rfl, rfl, rfl, rfl, rfl⟩

/-- C5: On the success path the minimum level is the override if present,
else the first tileset's order; the tile footprint of the (clamped)
rectangle's corners is computed at that level through the scheme's
tile-index function, and the level is forced to 0 exactly when the
footprint exceeds four tiles. -/
theorem minimum_level_heuristic (ext : Externals) (opts : ResolutionOptions)
    (url : String) (retry : Bool) (xml root f fst lst c : XmlNode)
    (scheme : TilingScheme)
    (hroot : xml.children.head? = some root)
    (hf : (scanNodes root.children).format = some f)
    (hfst : (scanNodes root.children).tilesetsList.head? = some fst)
    (hlst : (scanNodes root.children).tilesetsList.getLast? = some lst)
    (hc : (scanNodes root.children).tilesets = some c)
    (hts : resolveTilingScheme ext opts (c.getAttribute "profile") = some scheme)
    (hrb : opts.rectangle.isSome = true ∨ (scanNodes root.children).bbox.isSome = true) :
    ∃ cfg, metadataSuccess ext opts url xml retry =
        Except.ok [Completion.resolved cfg] ∧
      cfg.minimumLevel = applyMinLevelHeuristic scheme cfg.rectangle
        (jsDefaultInt opts.minimumLevel (parseIntJS (fst.getAttribute "order"))) ∧
      (tileCountAt scheme cfg.rectangle
          (jsDefaultInt opts.minimumLevel (parseIntJS (fst.getAttribute "order"))) > 4 →
        cfg.minimumLevel = JsInt.int 0) ∧
      (¬ (tileCountAt scheme cfg.rectangle
          (jsDefaultInt opts.minimumLevel (parseIntJS (fst.getAttribute "order"))) > 4) →
        cfg.minimumLevel =
          jsDefaultInt opts.minimumLevel (parseIntJS (fst.getAttribute "order"))) := by
  rw [metadataSuccess_reduce ext opts url xml retry root f fst lst c hroot hf hfst hlst hc,
    hts]
  have finish : ∀ r0 : Rectangle,
      ∃ cfg, (Except.ok [assembleSuccess opts url scheme r0
          (jsDefaultInt opts.tileWidth (parseIntJS (f.getAttribute "width")))
          (jsDefaultInt opts.tileHeight (parseIntJS (f.getAttribute "height")))
          (jsDefaultInt opts.minimumLevel (parseIntJS (fst.getAttribute "order")))
          (jsDefaultInt opts.maximumLevel (parseIntJS (lst.getAttribute "order")))
          (jsOrString opts.fileExtension (f.getAttribute "extension"))] :
            Except JsError (List Completion)) =
          Except.ok [Completion.resolved cfg] ∧
        cfg.minimumLevel = applyMinLevelHeuristic scheme cfg.rectangle
          (jsDefaultInt opts.minimumLevel (parseIntJS (fst.getAttribute "order"))) ∧
        (tileCountAt scheme cfg.rectangle
            (jsDefaultInt opts.minimumLevel (parseIntJS (fst.getAttribute "order"))) > 4 →
          cfg.minimumLevel = JsInt.int 0) ∧
        (¬ (tileCountAt scheme cfg.rectangle
            (jsDefaultInt opts.minimumLevel (parseIntJS (fst.getAttribute "order"))) > 4) →
          cfg.minimumLevel =
            jsDefaultInt opts.minimumLevel (parseIntJS (fst.getAttribute "order"))) := by
    intro r0
    obtain ⟨cfg, he, hrect, hmin, _⟩ := assembleSuccess_fields opts url scheme r0
      (jsDefaultInt opts.tileWidth (parseIntJS (f.getAttribute "width")))
      (jsDefaultInt opts.tileHeight (parseIntJS (f.getAttribute "height")))
      (jsDefaultInt opts.minimumLevel (parseIntJS (fst.getAttribute "order")))
      (jsDefaultInt opts.maximumLevel (parseIntJS (lst.getAttribute "order")))
      (jsOrString opts.fileExtension (f.getAttribute "extension"))
    refine ⟨cfg, by rw [he], ?_, ?_, ?_⟩
    · rw [hmin, hrect]
    · intro hcount
      rw [hmin, applyMinLevelHeuristic, if_pos (by rw [hrect] at hcount; exact hcount)]
    · intro hcount
      rw [hmin, applyMinLevelHeuristic, if_neg (by rw [hrect] at hcount; exact hcount)]
  cases hrect : opts.rectangle with
  | some r => exact finish r
  | none =>
    rcases hrb with hro | hbb
    · rw [hrect] at hro; simp at hro
    · rw [Option.isSome_iff_exists] at hbb
      obtain ⟨b, hbb⟩ := hbb
      rw [hbb]
      exact finish (deriveRectangle ext opts scheme (c.getAttribute "profile") b)

/-- C5 witness: the concrete document with tileset orders 2 and 9 under the
concrete web-mercator scheme. -/
theorem minimum_level_heuristic_witness :
    resolveTilingScheme extW {}
        ((tileSetsNodeW "global-mercator" [tileSetEntryW "2", tileSetEntryW "9"]).getAttribute "profile") =
      some (mkSchemeW SchemeKind.webMercator ⟨-3, -1, 3, 1⟩) ∧
    ∃ cfg, metadataSuccess extW {} "u" wellFormedDocW false =
        Except.ok [Completion.resolved cfg] ∧
      cfg.minimumLevel = applyMinLevelHeuristic
        (mkSchemeW SchemeKind.webMercator ⟨-3, -1, 3, 1⟩) cfg.rectangle
        (jsDefaultInt (none : Option ℤ) (parseIntJS ((tileSetEntryW "2").getAttribute "order"))) ∧
      (tileCountAt (mkSchemeW SchemeKind.webMercator ⟨-3, -1, 3, 1⟩) cfg.rectangle
          (jsDefaultInt (none : Option ℤ) (parseIntJS ((tileSetEntryW "2").getAttribute "order"))) > 4 →
        cfg.minimumLevel = JsInt.int 0) ∧
      (¬ (tileCountAt (mkSchemeW SchemeKind.webMercator ⟨-3, -1, 3, 1⟩) cfg.rectangle
          (jsDefaultInt (none : Option ℤ) (parseIntJS ((tileSetEntryW "2").getAttribute "order"))) > 4) →
        cfg.minimumLevel =
          jsDefaultInt (none : Option ℤ) (parseIntJS ((tileSetEntryW "2").getAttribute "order"))) :=
  ⟨rfl, minimum_level_heuristic extW {} "u" false wellFormedDocW
    (XmlNode.mk "TileMap" "" []
      [fmtNodeW, tileSetsNodeW "global-mercator" [tileSetEntryW "2", tileSetEntryW "9"], bboxNodeW])
    fmtNodeW (tileSetEntryW "2") (tileSetEntryW "9")
    (tileSetsNodeW "global-mercator" [tileSetEntryW "2", tileSetEntryW "9"])
    (mkSchemeW SchemeKind.webMercator ⟨-3, -1, 3, 1⟩)
    rfl rfl rfl rfl rfl rfl (Or.inr rfl)⟩

/-- C6: With no rectangle override, the rectangle is derived from the
bounding-box extrema: with the flip flag the X and Y attribute roles are
exchanged; the extrema are interpreted as latitude/longitude degrees when
the resolved scheme is geographic or the declared profile is a legacy
non-global name (`geodetic` or `mercator`), and otherwise unprojected
through the scheme's inverse projection; the rectangle is built from the
resulting southwest and northeast corners. -/
theorem rectangle_derivation_from_bbox (ext : Externals)
    (opts : ResolutionOptions) (url : String) (retry : Bool)
    (xml root f fst lst c b : XmlNode) (scheme : TilingScheme)
    (hroot : xml.children.head? = some root)
    (hf : (scanNodes root.children).format = some f)
    (hfst : (scanNodes root.children).tilesetsList.head? = some fst)
    (hlst : (scanNodes root.children).tilesetsList.getLast? = some lst)
    (hc : (scanNodes root.children).tilesets = some c)
    (hts : resolveTilingScheme ext opts (c.getAttribute "profile") = some scheme)
    (hrect : opts.rectangle = none)
    (hbb : (scanNodes root.children).bbox = some b) :
    ∃ cfg, metadataSuccess ext opts url xml retry =
        Except.ok [Completion.resolved cfg] ∧
      cfg.rectangle = clampRect scheme.rectangle
        (deriveRectangle ext opts scheme (c.getAttribute "profile") b) ∧
      deriveRectangle ext opts scheme (c.getAttribute "profile") b =
        (let name := c.getAttribute "profile"
         let flip := (opts.flipXY).getD false
         let swXY : Option ℚ × Option ℚ :=
           if flip then
             (parseFloatJS (b.getAttribute "miny"), parseFloatJS (b.getAttribute "minx"))
           else
             (parseFloatJS (b.getAttribute "minx"), parseFloatJS (b.getAttribute "miny"))
         let neXY : Option ℚ × Option ℚ :=
           if flip then
             (parseFloatJS (b.getAttribute "maxy"), parseFloatJS (b.getAttribute "maxx"))
           else
             (parseFloatJS (b.getAttribute "maxx"), parseFloatJS (b.getAttribute "maxy"))
         let degreesInterpretation :=
           scheme.kind = SchemeKind.geographic ∨
             name = some "geodetic" ∨ name = some "mercator"
         let sw := if degreesInterpretation then ext.fromDegrees swXY.1 swXY.2
                   else scheme.unproject swXY
         let ne := if degreesInterpretation then ext.fromDegrees neXY.1 neXY.2
                   else scheme.unproject neXY
         { west := sw.longitude, south := sw.latitude,
           east := ne.longitude, north := ne.latitude }) := by
  rw [metadataSuccess_reduce ext opts url xml retry root f fst lst c hroot hf hfst hlst hc,
    hts, hrect, hbb]
  obtain ⟨cfg, he, hrc, _⟩ := assembleSuccess_fields opts url scheme
    (deriveRectangle ext opts scheme (c.getAttribute "profile") b)
    (jsDefaultInt opts.tileWidth (parseIntJS (f.getAttribute "width")))
    (jsDefaultInt opts.tileHeight (parseIntJS (f.getAttribute "height")))
    (jsDefaultInt opts.minimumLevel (parseIntJS (fst.getAttribute "order")))
    (jsDefaultInt opts.maximumLevel (parseIntJS (lst.getAttribute "order")))
    (jsOrString opts.fileExtension (f.getAttribute "extension"))
  exact ⟨cfg, by simp only [he], hrc, rfl⟩

/-- Options with only the legacy flip flag set. -/
def optsFlipW : ResolutionOptions := { flipXY := some true }

/-- A concrete legacy-profile document. -/
def geodeticDocW : XmlNode :=
  docW [fmtNodeW, tileSetsNodeW "geodetic" [tileSetEntryW "0"], bboxNodeW]

/-- Options with only a rectangle override (outside the witness schemes'
bounds). -/
def optsRectW : ResolutionOptions := { rectangle := some ⟨-10, -10, 10, 10⟩ }

/-- C6 witness: a legacy `geodetic` document with the flip flag set. -/
theorem rectangle_derivation_witness :
    optsFlipW.rectangle = none ∧
    resolveTilingScheme extW optsFlipW
        ((tileSetsNodeW "geodetic" [tileSetEntryW "0"]).getAttribute "profile") =
      some (mkSchemeW SchemeKind.geographic ⟨-3, -2, 3, 2⟩) ∧
    (∃ cfg, metadataSuccess extW optsFlipW "u" geodeticDocW false =
        Except.ok [Completion.resolved cfg] ∧
      cfg.rectangle = clampRect (mkSchemeW SchemeKind.geographic ⟨-3, -2, 3, 2⟩).rectangle
        (deriveRectangle extW optsFlipW (mkSchemeW SchemeKind.geographic ⟨-3, -2, 3, 2⟩)
          ((tileSetsNodeW "geodetic" [tileSetEntryW "0"]).getAttribute "profile") bboxNodeW) ∧
      deriveRectangle extW optsFlipW (mkSchemeW SchemeKind.geographic ⟨-3, -2, 3, 2⟩)
          ((tileSetsNodeW "geodetic" [tileSetEntryW "0"]).getAttribute "profile") bboxNodeW =
        (let name := (tileSetsNodeW "geodetic" [tileSetEntryW "0"]).getAttribute "profile"
         let flip := (optsFlipW.flipXY).getD false
         let swXY : Option ℚ × Option ℚ :=
           if flip then
             (parseFloatJS (bboxNodeW.getAttribute "miny"), parseFloatJS (bboxNodeW.getAttribute "minx"))
           else
             (parseFloatJS (bboxNodeW.getAttribute "minx"), parseFloatJS (bboxNodeW.getAttribute "miny"))
         let neXY : Option ℚ × Option ℚ :=
           if flip then
             (parseFloatJS (bboxNodeW.getAttribute "maxy"), parseFloatJS (bboxNodeW.getAttribute "maxx"))
           else
             (parseFloatJS (bboxNodeW.getAttribute "maxx"), parseFloatJS (bboxNodeW.getAttribute "maxy"))
         let degreesInterpretation :=
           (mkSchemeW SchemeKind.geographic ⟨-3, -2, 3, 2⟩).kind = SchemeKind.geographic ∨
             name = some "geodetic" ∨ name = some "mercator"
         let sw := if degreesInterpretation then extW.fromDegrees swXY.1 swXY.2
                   else (mkSchemeW SchemeKind.geographic ⟨-3, -2, 3, 2⟩).unproject swXY
         let ne := if degreesInterpretation then extW.fromDegrees neXY.1 neXY.2
                   else (mkSchemeW SchemeKind.geographic ⟨-3, -2, 3, 2⟩).unproject neXY
         { west := sw.longitude, south := sw.latitude,
           east := ne.longitude, north := ne.latitude })) :=
  ⟨rfl, rfl, rectangle_derivation_from_bbox extW optsFlipW "u" false geodeticDocW
    (XmlNode.mk "TileMap" "" [] [fmtNodeW, tileSetsNodeW "geodetic" [tileSetEntryW "0"], bboxNodeW])
    fmtNodeW (tileSetEntryW "0") (tileSetEntryW "0")
    (tileSetsNodeW "geodetic" [tileSetEntryW "0"]) bboxNodeW
    (mkSchemeW SchemeKind.geographic ⟨-3, -2, 3, 2⟩)
    rfl rfl rfl rfl rfl rfl rfl rfl⟩

/-- C7: Each of the four edges is independently clamped to the scheme's
valid rectangle (west/south pulled up to the bound when below it, east/
north pulled down when above it, untouched otherwise — never expanded),
and the success path applies this clamping both to a caller rectangle
override and to a document-derived rectangle. -/
theorem rectangle_clamping_edges :
    (∀ bounds r : Rectangle,
      (clampRect bounds r).west = max bounds.west r.west ∧
      (clampRect bounds r).south = max bounds.south r.south ∧
      (clampRect bounds r).east = min bounds.east r.east ∧
      (clampRect bounds r).north = min bounds.north r.north ∧
      r.west ≤ (clampRect bounds r).west ∧
      r.south ≤ (clampRect bounds r).south ∧
      (clampRect bounds r).east ≤ r.east ∧
      (clampRect bounds r).north ≤ r.north ∧
      (bounds.west ≤ r.west → (clampRect bounds r).west = r.west) ∧
      (bounds.south ≤ r.south → (clampRect bounds r).south = r.south) ∧
      (r.east ≤ bounds.east → (clampRect bounds r).east = r.east) ∧
      (r.north ≤ bounds.north → (clampRect bounds r).north = r.north) ∧
      (r.west < bounds.west → (clampRect bounds r).west = bounds.west) ∧
      (r.south < bounds.south → (clampRect bounds r).south = bounds.south) ∧
      (bounds.east < r.east → (clampRect bounds r).east = bounds.east) ∧
      (bounds.north < r.north → (clampRect bounds r).north = bounds.north)) ∧
    (∀ (ext : Externals) (opts : ResolutionOptions) (url : String) (retry : Bool)
        (xml root f fst lst c : XmlNode) (scheme : TilingScheme),
      xml.children.head? = some root →
      (scanNodes root.children).format = some f →
      (scanNodes root.children).tilesetsList.head? = some fst →
      (scanNodes root.children).tilesetsList.getLast? = some lst →
      (scanNodes root.children).tilesets = some c →
      resolveTilingScheme ext opts (c.getAttribute "profile") = some scheme →
      ((∀ r, opts.rectangle = some r →
          ∃ cfg, metadataSuccess ext opts url xml retry =
              Except.ok [Completion.resolved cfg] ∧
            cfg.rectangle = clampRect scheme.rectangle r) ∧
       (opts.rectangle = none → ∀ b, (scanNodes root.children).bbox = some b →
          ∃ cfg, metadataSuccess ext opts url xml retry =
              Except.ok [Completion.resolved cfg] ∧
            cfg.rectangle = clampRect scheme.rectangle
              (deriveRectangle ext opts scheme (c.getAttribute "profile") b)))) := by
  constructor
  · intro bounds r
    refine ⟨clampRect_west bounds r, clampRect_south bounds r, clampRect_east bounds r,
      clampRect_north bounds r, ?_, ?_, ?_, ?_, ?_, ?_, ?_, ?_, ?_, ?_, ?_, ?_⟩
    · rw [clampRect_west]; exact le_max_right _ _
    · rw [clampRect_south]; exact le_max_right _ _
    · rw [clampRect_east]; exact min_le_right _ _
    · rw [clampRect_north]; exact min_le_right _ _
    · intro h; rw [clampRect_west]; exact max_eq_right h
    · intro h; rw [clampRect_south]; exact max_eq_right h
    · intro h; rw [clampRect_east]; exact min_eq_right h
    · intro h; rw [clampRect_north]; exact min_eq_right h
    · intro h; rw [clampRect_west]; exact max_eq_left h.le
    · intro h; rw [clampRect_south]; exact max_eq_left h.le
    · intro h; rw [clampRect_east]; exact min_eq_left h.le
    · intro h; rw [clampRect_north]; exact min_eq_left h.le
  · intro ext opts url retry xml root f fst lst c scheme hroot hf hfst hlst hc hts
    rw [metadataSuccess_reduce ext opts url xml retry root f fst lst c hroot hf hfst hlst hc,
      hts]
    constructor
    · intro r hrect
      rw [hrect]
      obtain ⟨cfg, he, hrc, _⟩ := assembleSuccess_fields opts url scheme r
        (jsDefaultInt opts.tileWidth (parseIntJS (f.getAttribute "width")))
        (jsDefaultInt opts.tileHeight (parseIntJS (f.getAttribute "height")))
        (jsDefaultInt opts.minimumLevel (parseIntJS (fst.getAttribute "order")))
        (jsDefaultInt opts.maximumLevel (parseIntJS (lst.getAttribute "order")))
        (jsOrString opts.fileExtension (f.getAttribute "extension"))
      exact ⟨cfg, by simp only [he], hrc⟩
    · intro hrect b hbb
      rw [hrect, hbb]
      obtain ⟨cfg, he, hrc, _⟩ := assembleSuccess_fields opts url scheme
        (deriveRectangle ext opts scheme (c.getAttribute "profile") b)
        (jsDefaultInt opts.tileWidth (parseIntJS (f.getAttribute "width")))
        (jsDefaultInt opts.tileHeight (parseIntJS (f.getAttribute "height")))
        (jsDefaultInt opts.minimumLevel (parseIntJS (fst.getAttribute "order")))
        (jsDefaultInt opts.maximumLevel (parseIntJS (lst.getAttribute "order")))
        (jsOrString opts.fileExtension (f.getAttribute "extension"))
      exact ⟨cfg, by simp only [he], hrc⟩

/-- C7 witness: a caller override far outside the concrete web-mercator
scheme's bounds is clamped on the success path. -/
theorem rectangle_clamping_edges_witness :
    optsRectW.rectangle = some ⟨-10, -10, 10, 10⟩ ∧
    ∃ cfg, metadataSuccess extW optsRectW "u" wellFormedDocW false =
        Except.ok [Completion.resolved cfg] ∧
      cfg.rectangle = clampRect (mkSchemeW SchemeKind.webMercator ⟨-3, -1, 3, 1⟩).rectangle
        ⟨-10, -10, 10, 10⟩ :=
  ⟨rfl, (rectangle_clamping_edges.2 extW optsRectW "u" false wellFormedDocW
    (XmlNode.mk "TileMap" "" []
      [fmtNodeW, tileSetsNodeW "global-mercator" [tileSetEntryW "2", tileSetEntryW "9"], bboxNodeW])
    fmtNodeW (tileSetEntryW "2") (tileSetEntryW "9")
    (tileSetsNodeW "global-mercator" [tileSetEntryW "2", tileSetEntryW "9"])
    (mkSchemeW SchemeKind.webMercator ⟨-3, -1, 3, 1⟩)
    rfl rfl rfl rfl rfl rfl).1 ⟨-10, -10, 10, 10⟩ rfl⟩

/-- C9 witness: the override rectangle lies outside the fallback scheme's
bounds (clamping would change it) yet is adopted verbatim. -/
theorem fallback_overrides_verbatim_witness :
    optsRectW.rectangle = some ⟨-10, -10, 10, 10⟩ ∧
    clampRect (extW.webMercatorScheme none).rectangle ⟨-10, -10, 10, 10⟩ ≠
      ⟨-10, -10, 10, 10⟩ ∧
    ∃ cfg, resolveStep extW optsRectW "u" false FetchOutcome.failure =
        Except.ok [Completion.resolved cfg] ∧
      cfg.rectangle = ⟨-10, -10, 10, 10⟩ ∧
      cfg.minimumLevel = JsInt.int ((optsRectW.minimumLevel).getD 0) ∧
      (∀ m, optsRectW.minimumLevel = some m → cfg.minimumLevel = JsInt.int m) :=
  ⟨rfl, by decide,
    fallback_overrides_verbatim extW optsRectW "u" false ⟨-10, -10, 10, 10⟩ rfl⟩

/-- C10: On the success path the caller's rectangle override object is
never mutated: the pipeline clones it and clamps the clone in place, so
after the rectangle handling the caller's object holds exactly the values
it held before, and the configuration's rectangle is a distinct object. -/
theorem rectangle_override_not_mutated (ext : Externals)
    (opts : ResolutionOptions) (scheme : TilingScheme) (name : Option String)
    (bbox : Option XmlNode) (h h2 : RectHeap) (r res : ℕ) (v : Rectangle)
    (hwf : RectHeap.WF h) (hr : h.get r = some v)
    (hrun : rectangleHandlingRef ext opts scheme name bbox (some r) h =
      Except.ok (res, h2)) :
    h2.get r = some v ∧ res ≠ r := by
  have hmem := heapFind_mem h.entries r v hr
  have hlt : r < h.next := hwf _ hmem
  have hner : r ≠ h.next := ne_of_lt hlt
  simp only [rectangleHandlingRef, hr] at hrun
  rcases hclamp : clampEdgesInPlace scheme.rectangle (h.alloc v).1 (h.alloc v).2
    with e | h3
  · rw [hclamp] at hrun; cases hrun
  · rw [hclamp] at hrun
    simp only [Except.map, Except.ok.injEq, Prod.mk.injEq] at hrun
    obtain ⟨hres, hh2⟩ := hrun
    have hpr : h3.get r = ((h.alloc v).2).get r :=
      clampEdges_preserves scheme.rectangle (h.alloc v).1 (h.alloc v).2 h3 r hner hclamp
    constructor
    · rw [← hh2, hpr, RectHeap.get_alloc_ne h v r hner]
      exact hr
    · rw [← hres]
      exact fun hh => hner hh.symm

/-- A concrete one-object heap: reference 0 holds the caller's rectangle. -/
def heapW : RectHeap := ⟨[(0, ⟨-10, -10, 10, 10⟩)], 1⟩

/-- C10 witness: running the rectangle handling on the concrete heap
clamps a fresh clone (reference 1) and leaves the caller's object
(reference 0) untouched. -/
theorem rectangle_override_not_mutated_witness :
    RectHeap.WF heapW ∧
    heapW.get 0 = some ⟨-10, -10, 10, 10⟩ ∧
    rectangleHandlingRef extW {} (mkSchemeW SchemeKind.webMercator ⟨-3, -1, 3, 1⟩)
        none none (some 0) heapW =
      Except.ok (1, ⟨[(1, ⟨-3, -1, 3, 1⟩), (0, ⟨-10, -10, 10, 10⟩)], 2⟩) ∧
    ((⟨[(1, ⟨-3, -1, 3, 1⟩), (0, ⟨-10, -10, 10, 10⟩)], 2⟩ : RectHeap).get 0 =
        some ⟨-10, -10, 10, 10⟩ ∧ (1 : ℕ) ≠ 0) := by
  have hwf : RectHeap.WF heapW := by
    intro p hp
    rw [show heapW.entries = [(0, (⟨-10, -10, 10, 10⟩ : Rectangle))] from rfl,
      List.mem_singleton] at hp
    rw [hp]
    exact Nat.zero_lt_one
  refine ⟨hwf, rfl, rfl, ?_⟩
  exact rectangle_override_not_mutated extW {}
    (mkSchemeW SchemeKind.webMercator ⟨-3, -1, 3, 1⟩) none none heapW
    ⟨[(1, ⟨-3, -1, 3, 1⟩), (0, ⟨-10, -10, 10, 10⟩)], 2⟩ 0 1 ⟨-10, -10, 10, 10⟩
    hwf rfl rfl
